import Mathlib

/-!
Verification of the Black-Scholes option model (black_scholes.py).

The source is embedded shallowly over the real numbers: the five stored
scalars become real numbers, scipy's standard normal density and cumulative
distribution become the Gaussian density and its set integral, and fallible
Python code becomes Except-valued functions.  Pure Python float division
raises ZeroDivisionError on a zero divisor, while the numpy/scipy scalar
arithmetic used everywhere else never raises; the embedding keeps that
distinction.  The py_vollib library is external to the repository and is
modelled as an unknown family of fallible scalar functions supplied as an
argument.
-/

open MeasureTheory

/-- Standard normal probability density function, scipy norm.pdf with
mean 0 and standard deviation 1. -/
noncomputable def normPdf (x : ℝ) : ℝ :=
  Real.exp (-(x ^ 2) / 2) / Real.sqrt (2 * Real.pi)

/-- Standard normal cumulative distribution function, scipy norm.cdf with
mean 0 and standard deviation 1: the integral of the density up to x. -/
noncomputable def normCdf (x : ℝ) : ℝ :=
  ∫ t in Set.Iic x, normPdf t

/-- Python exceptions the embedded code can raise or observe. -/
inductive PyErr where
  | valueError (msg : String)
  | zeroDivisionError
  | libError
deriving Repr, DecidableEq

/-- Pure Python float division: raises ZeroDivisionError on a zero divisor,
otherwise divides. -/
noncomputable def pyDiv (x y : ℝ) : Except PyErr ℝ :=
  if y = 0 then .error .zeroDivisionError else .ok (x / y)

/-- The stored state of class BlackScholesModel: the five scalars the
constructor assigns. -/
structure BlackScholesModel where
  S : ℝ
  K : ℝ
  T : ℝ
  r : ℝ
  sigma : ℝ

/-- BlackScholesModel.__init__: raises ValueError unless T is positive and
sigma non-negative, and otherwise stores the five scalars unchanged. -/
noncomputable def BlackScholesModel.init (S K T r sigma : ℝ) :
    Except PyErr BlackScholesModel :=
  if T ≤ 0 ∨ sigma < 0 then
    .error (.valueError
      "Time to expiration must be positive and volatility must be non-negative.")
  else
    .ok ⟨S, K, T, r, sigma⟩

/-- BlackScholesModel._calculate_d1_d2.  The quotient S / K is pure Python
float division and raises on K = 0; the remaining arithmetic is numpy
scalar arithmetic, which never raises. -/
noncomputable def BlackScholesModel.calculate_d1_d2 (m : BlackScholesModel) :
    Except PyErr (ℝ × ℝ) := do
  let q ← pyDiv m.S m.K
  let d1 := (Real.log q + (m.r + m.sigma ^ 2 / 2) * m.T) / (m.sigma * Real.sqrt m.T)
  let d2 := d1 - m.sigma * Real.sqrt m.T
  return (d1, d2)

/-- The d1 value _calculate_d1_d2 computes when its division succeeds. -/
noncomputable def d1val (m : BlackScholesModel) : ℝ :=
  (Real.log (m.S / m.K) + (m.r + m.sigma ^ 2 / 2) * m.T) / (m.sigma * Real.sqrt m.T)

/-- The d2 value _calculate_d1_d2 computes when its division succeeds. -/
noncomputable def d2val (m : BlackScholesModel) : ℝ :=
  d1val m - m.sigma * Real.sqrt m.T

/-- One returned dictionary entry: the manually computed value and the
py_vollib value, each an Optional float. -/
structure ManualLib where
  Manual : Option ℝ
  Py_Vollib : Option ℝ

/-- The py_vollib functions the source calls, modelled as unknown fallible
scalar functions of (flag, S, K, T, r, sigma). -/
structure PyVollib where
  bs : String → ℝ → ℝ → ℝ → ℝ → ℝ → Except PyErr ℝ
  delta : String → ℝ → ℝ → ℝ → ℝ → ℝ → Except PyErr ℝ
  gamma : String → ℝ → ℝ → ℝ → ℝ → ℝ → Except PyErr ℝ
  theta : String → ℝ → ℝ → ℝ → ℝ → ℝ → Except PyErr ℝ
  vega : String → ℝ → ℝ → ℝ → ℝ → ℝ → Except PyErr ℝ
  rho : String → ℝ → ℝ → ℝ → ℝ → ℝ → Except PyErr ℝ

/-- A Python try block that builds one dictionary entry, with the
corresponding except branch producing the all-None entry. -/
def tryEntry (body : Except PyErr ManualLib) : ManualLib :=
  match body with
  | .ok e => e
  | .error _ => ⟨none, none⟩

/-- The try block of calculate_price: the branch on the option type (with
the explicit ValueError for an unknown type), the manual price formula, and
the py_vollib cross-check call. -/
noncomputable def priceEntry (libbs : String → ℝ → ℝ → ℝ → ℝ → ℝ → Except PyErr ℝ)
    (m : BlackScholesModel) (option_type : String) (d1 d2 : ℝ) : ManualLib :=
  tryEntry (do
    let price ←
      if option_type = "c" then
        pure (m.S * normCdf d1 - m.K * Real.exp (-m.r * m.T) * normCdf d2)
      else if option_type = "p" then
        pure (m.K * Real.exp (-m.r * m.T) * normCdf (-d2) - m.S * normCdf (-d1))
      else
        Except.error (.valueError "Option type must be c or p")
    let lib_price ← libbs option_type m.S m.K m.T m.r m.sigma
    return ⟨some price, some lib_price⟩)

/-- BlackScholesModel.calculate_price: derives d1 and d2 outside the try
block, then evaluates the try block. -/
noncomputable def BlackScholesModel.calculate_price (m : BlackScholesModel)
    (lib : PyVollib) (option_type : String) : Except PyErr ManualLib := do
  let (d1, d2) ← m.calculate_d1_d2
  return priceEntry lib.bs m option_type d1 d2

/-- The Delta try block of calculate_greeks. -/
noncomputable def deltaEntry (libdelta : String → ℝ → ℝ → ℝ → ℝ → ℝ → Except PyErr ℝ)
    (m : BlackScholesModel) (option_type : String) (d1 : ℝ) : ManualLib :=
  tryEntry (do
    let delta_val := if option_type = "c" then normCdf d1 else -normCdf (-d1)
    let libv ← libdelta option_type m.S m.K m.T m.r m.sigma
    return ⟨some delta_val, some libv⟩)

/-- The Gamma try block of calculate_greeks. -/
noncomputable def gammaEntry (libgamma : String → ℝ → ℝ → ℝ → ℝ → ℝ → Except PyErr ℝ)
    (m : BlackScholesModel) (option_type : String) (d1 : ℝ) : ManualLib :=
  tryEntry (do
    let gamma_val := normPdf d1 / (m.S * m.sigma * Real.sqrt m.T)
    let libv ← libgamma option_type m.S m.K m.T m.r m.sigma
    return ⟨some gamma_val, some libv⟩)

/-- The Theta try block of calculate_greeks: the annualized theta divided
by 365. -/
noncomputable def thetaEntry (libtheta : String → ℝ → ℝ → ℝ → ℝ → ℝ → Except PyErr ℝ)
    (m : BlackScholesModel) (option_type : String) (d1 d2 : ℝ) : ManualLib :=
  tryEntry (do
    let theta_val :=
      if option_type = "c" then
        -m.S * normPdf d1 * m.sigma / (2 * Real.sqrt m.T)
          - m.r * m.K * Real.exp (-m.r * m.T) * normCdf d2
      else
        -m.S * normPdf d1 * m.sigma / (2 * Real.sqrt m.T)
          + m.r * m.K * Real.exp (-m.r * m.T) * normCdf (-d2)
    let libv ← libtheta option_type m.S m.K m.T m.r m.sigma
    return ⟨some (theta_val / 365), some libv⟩)

/-- The Vega try block of calculate_greeks: the raw vega scaled by 0.01. -/
noncomputable def vegaEntry (libvega : String → ℝ → ℝ → ℝ → ℝ → ℝ → Except PyErr ℝ)
    (m : BlackScholesModel) (option_type : String) (d1 : ℝ) : ManualLib :=
  tryEntry (do
    let vega_val := m.S * normPdf d1 * Real.sqrt m.T
    let libv ← libvega option_type m.S m.K m.T m.r m.sigma
    return ⟨some (vega_val * 0.01), some libv⟩)

/-- The Rho try block of calculate_greeks: the raw rho scaled by 0.01. -/
noncomputable def rhoEntry (librho : String → ℝ → ℝ → ℝ → ℝ → ℝ → Except PyErr ℝ)
    (m : BlackScholesModel) (option_type : String) (d2 : ℝ) : ManualLib :=
  tryEntry (do
    let rho_val :=
      if option_type = "c" then
        m.K * m.T * Real.exp (-m.r * m.T) * normCdf d2
      else
        -m.K * m.T * Real.exp (-m.r * m.T) * normCdf (-d2)
    let libv ← librho option_type m.S m.K m.T m.r m.sigma
    return ⟨some (rho_val * 0.01), some libv⟩)

/-- The record calculate_greeks returns: one entry per Greek. -/
structure GreeksResult where
  Delta : ManualLib
  Gamma : ManualLib
  Theta : ManualLib
  Vega : ManualLib
  Rho : ManualLib

/-- BlackScholesModel.calculate_greeks: derives d1 and d2 once, outside
every try block, then evaluates the five independent try blocks. -/
noncomputable def BlackScholesModel.calculate_greeks (m : BlackScholesModel)
    (lib : PyVollib) (option_type : String) : Except PyErr GreeksResult := do
  let (d1, d2) ← m.calculate_d1_d2
  return ⟨deltaEntry lib.delta m option_type d1,
    gammaEntry lib.gamma m option_type d1,
    thetaEntry lib.theta m option_type d1 d2,
    vegaEntry lib.vega m option_type d1,
    rhoEntry lib.rho m option_type d2⟩

/-- A concrete py_vollib behaviour, returning 0 from every call; used to
instantiate the theorems at concrete inputs. -/
def constLib : PyVollib :=
  ⟨fun _ _ _ _ _ _ => .ok 0, fun _ _ _ _ _ _ => .ok 0, fun _ _ _ _ _ _ => .ok 0,
    fun _ _ _ _ _ _ => .ok 0, fun _ _ _ _ _ _ => .ok 0, fun _ _ _ _ _ _ => .ok 0⟩

/-- A concrete valid parameter set (S = 2, K = 1, T = 1, r = 0, sigma = 1)
used to instantiate the theorems at concrete inputs. -/
noncomputable def mw : BlackScholesModel := ⟨2, 1, 1, 0, 1⟩

/-- A concrete parameter set with a zero strike (S = 1, K = 0, T = 1, r = 0,
sigma = 1): it passes construction, since only T and sigma are validated. -/
noncomputable def mz : BlackScholesModel := ⟨1, 0, 1, 0, 1⟩

/-! ### Facts about the standard normal density and distribution -/

theorem normPdf_nonneg (x : ℝ) : 0 ≤ normPdf x :=
  div_nonneg (Real.exp_pos _).le (Real.sqrt_nonneg _)

theorem normPdf_neg (x : ℝ) : normPdf (-x) = normPdf x := by
  simp [normPdf, neg_sq]

theorem normPdf_eq_gauss (x : ℝ) :
    normPdf x = Real.exp (-2⁻¹ * x ^ 2) * (Real.sqrt (2 * Real.pi))⁻¹ := by
  unfold normPdf
  rw [div_eq_mul_inv]
  congr 1
  congr 1
  ring

theorem integrable_normPdf : Integrable normPdf := by
  have hb : (0 : ℝ) < 2⁻¹ := by norm_num
  refine ((integrable_exp_neg_mul_sq hb).mul_const
    (Real.sqrt (2 * Real.pi))⁻¹).congr (Filter.Eventually.of_forall fun x => ?_)
  rw [normPdf_eq_gauss]

theorem integral_normPdf : (∫ x, normPdf x) = 1 := by
  have hπ : Real.sqrt (2 * Real.pi) ≠ 0 := Real.sqrt_ne_zero'.mpr (by positivity)
  calc (∫ x, normPdf x)
      = ∫ x : ℝ, Real.exp (-2⁻¹ * x ^ 2) * (Real.sqrt (2 * Real.pi))⁻¹ := by
        simp only [normPdf_eq_gauss]
    _ = (∫ x : ℝ, Real.exp (-2⁻¹ * x ^ 2)) * (Real.sqrt (2 * Real.pi))⁻¹ :=
        integral_mul_right _ _
    _ = Real.sqrt (Real.pi / 2⁻¹) * (Real.sqrt (2 * Real.pi))⁻¹ := by
        rw [integral_gaussian]
    _ = 1 := by
        rw [show Real.pi / 2⁻¹ = 2 * Real.pi by ring, mul_inv_cancel₀ hπ]

theorem normCdf_neg_eq (x : ℝ) : normCdf (-x) = ∫ t in Set.Ioi x, normPdf t := by
  have h1 : (∫ t in Set.Iic (-x), normPdf t) = ∫ t in Set.Iic (-x), normPdf (-t) := by
    simp only [normPdf_neg]
  rw [normCdf, h1, integral_comp_neg_Iic, neg_neg]

theorem normCdf_add_normCdf_neg (x : ℝ) : normCdf x + normCdf (-x) = 1 := by
  rw [normCdf, normCdf_neg_eq,
    intervalIntegral.integral_Iic_add_Ioi integrable_normPdf.integrableOn
      integrable_normPdf.integrableOn,
    integral_normPdf]

/-! ### Reduction lemmas for the embedded operations -/

theorem calculate_d1_d2_ok (m : BlackScholesModel) (hK : m.K ≠ 0) :
    m.calculate_d1_d2 = .ok (d1val m, d2val m) := by
  simp [BlackScholesModel.calculate_d1_d2, pyDiv, hK, d1val, d2val]

theorem calculate_d1_d2_raises (m : BlackScholesModel) (hK : m.K = 0) :
    m.calculate_d1_d2 = .error .zeroDivisionError := by
  simp [BlackScholesModel.calculate_d1_d2, pyDiv, hK]

theorem calculate_price_ok (m : BlackScholesModel) (lib : PyVollib)
    (ty : String) (hK : m.K ≠ 0) :
    m.calculate_price lib ty = .ok (priceEntry lib.bs m ty (d1val m) (d2val m)) := by
  simp [BlackScholesModel.calculate_price, calculate_d1_d2_ok m hK]

theorem calculate_price_raises (m : BlackScholesModel) (lib : PyVollib)
    (ty : String) (hK : m.K = 0) :
    m.calculate_price lib ty = .error .zeroDivisionError := by
  simp [BlackScholesModel.calculate_price, calculate_d1_d2_raises m hK]

theorem calculate_greeks_ok (m : BlackScholesModel) (lib : PyVollib)
    (ty : String) (hK : m.K ≠ 0) :
    m.calculate_greeks lib ty = .ok
      ⟨deltaEntry lib.delta m ty (d1val m),
        gammaEntry lib.gamma m ty (d1val m),
        thetaEntry lib.theta m ty (d1val m) (d2val m),
        vegaEntry lib.vega m ty (d1val m),
        rhoEntry lib.rho m ty (d2val m)⟩ := by
  simp [BlackScholesModel.calculate_greeks, calculate_d1_d2_ok m hK]

theorem calculate_greeks_raises (m : BlackScholesModel) (lib : PyVollib)
    (ty : String) (hK : m.K = 0) :
    m.calculate_greeks lib ty = .error .zeroDivisionError := by
  simp [BlackScholesModel.calculate_greeks, calculate_d1_d2_raises m hK]

theorem deltaEntry_manual (f : String → ℝ → ℝ → ℝ → ℝ → ℝ → Except PyErr ℝ)
    (m : BlackScholesModel) (ty : String) (d1 : ℝ) :
    (deltaEntry f m ty d1).Manual
      = (f ty m.S m.K m.T m.r m.sigma).toOption.map
          (fun _ => if ty = "c" then normCdf d1 else -normCdf (-d1)) := by
  rcases h : f ty m.S m.K m.T m.r m.sigma with e | v <;>
    simp [deltaEntry, tryEntry, h, Except.toOption]

theorem gammaEntry_manual (f : String → ℝ → ℝ → ℝ → ℝ → ℝ → Except PyErr ℝ)
    (m : BlackScholesModel) (ty : String) (d1 : ℝ) :
    (gammaEntry f m ty d1).Manual
      = (f ty m.S m.K m.T m.r m.sigma).toOption.map
          (fun _ => normPdf d1 / (m.S * m.sigma * Real.sqrt m.T)) := by
  rcases h : f ty m.S m.K m.T m.r m.sigma with e | v <;>
    simp [gammaEntry, tryEntry, h, Except.toOption]

theorem thetaEntry_manual (f : String → ℝ → ℝ → ℝ → ℝ → ℝ → Except PyErr ℝ)
    (m : BlackScholesModel) (ty : String) (d1 d2 : ℝ) :
    (thetaEntry f m ty d1 d2).Manual
      = (f ty m.S m.K m.T m.r m.sigma).toOption.map
          (fun _ =>
            (if ty = "c" then
              -m.S * normPdf d1 * m.sigma / (2 * Real.sqrt m.T)
                - m.r * m.K * Real.exp (-m.r * m.T) * normCdf d2
            else
              -m.S * normPdf d1 * m.sigma / (2 * Real.sqrt m.T)
                + m.r * m.K * Real.exp (-m.r * m.T) * normCdf (-d2)) / 365) := by
  rcases h : f ty m.S m.K m.T m.r m.sigma with e | v <;>
    simp [thetaEntry, tryEntry, h, Except.toOption]

theorem vegaEntry_manual (f : String → ℝ → ℝ → ℝ → ℝ → ℝ → Except PyErr ℝ)
    (m : BlackScholesModel) (ty : String) (d1 : ℝ) :
    (vegaEntry f m ty d1).Manual
      = (f ty m.S m.K m.T m.r m.sigma).toOption.map
          (fun _ => m.S * normPdf d1 * Real.sqrt m.T * 0.01) := by
  rcases h : f ty m.S m.K m.T m.r m.sigma with e | v <;>
    simp [vegaEntry, tryEntry, h, Except.toOption]

theorem rhoEntry_manual (f : String → ℝ → ℝ → ℝ → ℝ → ℝ → Except PyErr ℝ)
    (m : BlackScholesModel) (ty : String) (d2 : ℝ) :
    (rhoEntry f m ty d2).Manual
      = (f ty m.S m.K m.T m.r m.sigma).toOption.map
          (fun _ =>
            (if ty = "c" then m.K * m.T * Real.exp (-m.r * m.T) * normCdf d2
             else -m.K * m.T * Real.exp (-m.r * m.T) * normCdf (-d2)) * 0.01) := by
  rcases h : f ty m.S m.K m.T m.r m.sigma with e | v <;>
    simp [rhoEntry, tryEntry, h, Except.toOption]

theorem entry_shape (e : Except PyErr ℝ) (x : ℝ) :
    tryEntry (do let v ← e; pure ⟨some x, some v⟩) = ⟨none, none⟩
      ∨ ∃ a b, tryEntry (do let v ← e; pure ⟨some x, some v⟩) = ⟨some a, some b⟩ := by
  rcases e with err | v
  · left; rfl
  · right; exact ⟨x, v, rfl⟩

theorem priceEntry_shape (f : String → ℝ → ℝ → ℝ → ℝ → ℝ → Except PyErr ℝ)
    (m : BlackScholesModel) (ty : String) (d1 d2 : ℝ) :
    priceEntry f m ty d1 d2 = ⟨none, none⟩
      ∨ ∃ x y, priceEntry f m ty d1 d2 = ⟨some x, some y⟩ := by
  by_cases h1 : ty = "c"
  · subst h1
    rcases hb : f "c" m.S m.K m.T m.r m.sigma with e | v
    · left
      unfold priceEntry
      rw [if_pos rfl, hb]
      rfl
    · right
      refine ⟨m.S * normCdf d1 - m.K * Real.exp (-m.r * m.T) * normCdf d2, v, ?_⟩
      unfold priceEntry
      rw [if_pos rfl, hb]
      rfl
  · by_cases h2 : ty = "p"
    · subst h2
      rcases hb : f "p" m.S m.K m.T m.r m.sigma with e | v
      · left
        unfold priceEntry
        rw [if_neg h1, if_pos rfl, hb]
        rfl
      · right
        refine ⟨m.K * Real.exp (-m.r * m.T) * normCdf (-d2) - m.S * normCdf (-d1), v, ?_⟩
        unfold priceEntry
        rw [if_neg h1, if_pos rfl, hb]
        rfl
    · left
      unfold priceEntry
      rw [if_neg h1, if_neg h2]
      rfl

theorem priceEntry_manual (f : String → ℝ → ℝ → ℝ → ℝ → ℝ → Except PyErr ℝ)
    (m : BlackScholesModel) (ty : String) (d1 d2 : ℝ) (h : ty = "c" ∨ ty = "p") :
    (priceEntry f m ty d1 d2).Manual
      = (f ty m.S m.K m.T m.r m.sigma).toOption.map
          (fun _ =>
            if ty = "c" then
              m.S * normCdf d1 - m.K * Real.exp (-m.r * m.T) * normCdf d2
            else
              m.K * Real.exp (-m.r * m.T) * normCdf (-d2) - m.S * normCdf (-d1)) := by
  rcases h with h | h <;> subst h <;>
    rcases hb : f _ m.S m.K m.T m.r m.sigma with e | v <;>
      simp [priceEntry, tryEntry, hb, Except.toOption]

/-! ### The claims -/

/-- Claim C3: construction from (S, K, T, r, sigma) fails with the
ValueError exactly when T ≤ 0 or sigma < 0, and succeeds for every other
input, storing the five scalars unchanged; in particular S and K are not
validated. -/
theorem init_validates_T_sigma (S K T r sigma : ℝ) :
    ((∃ e, BlackScholesModel.init S K T r sigma = .error e) ↔ T ≤ 0 ∨ sigma < 0)
      ∧ (¬(T ≤ 0 ∨ sigma < 0) →
          BlackScholesModel.init S K T r sigma = .ok ⟨S, K, T, r, sigma⟩) := by
  unfold BlackScholesModel.init
  by_cases h : T ≤ 0 ∨ sigma < 0
  · rw [if_pos h]
    exact ⟨⟨fun _ => h, fun _ => ⟨_, rfl⟩⟩, fun hc => absurd h hc⟩
  · rw [if_neg h]
    exact ⟨⟨fun ⟨e, he⟩ => absurd he (by simp), fun hh => absurd hh h⟩, fun _ => rfl⟩

/-- Claim C5, amended: for every model whose strike is nonzero and every
option type, calculate_price returns normally, any fault inside the try
block having been converted to the all-None entry, so the result is either
a pair of absent values or a pair of present values.  As stated the claim
is false: with K = 0 the division in _calculate_d1_d2 raises outside the
try block and propagates. -/
theorem calculate_price_no_raise_of_strike_ne_zero (lib : PyVollib)
    (m : BlackScholesModel) (ty : String) (hK : m.K ≠ 0) :
    ∃ res, m.calculate_price lib ty = .ok res
      ∧ (res = ⟨none, none⟩ ∨ ∃ x y, res = ⟨some x, some y⟩) :=
  ⟨_, calculate_price_ok m lib ty hK, priceEntry_shape lib.bs m ty (d1val m) (d2val m)⟩

/-- Witness for C5 at the concrete model mw and the concrete library. -/
theorem calculate_price_no_raise_witness :
    ∃ res, mw.calculate_price constLib "c" = .ok res
      ∧ (res = ⟨none, none⟩ ∨ ∃ x y, res = ⟨some x, some y⟩) :=
  calculate_price_no_raise_of_strike_ne_zero constLib mw "c" (by norm_num [mw])

/-- Counterexample to C5 as stated: the model with K = 0 is constructed
successfully (only T and sigma are validated), yet calculate_price
propagates ZeroDivisionError to its caller instead of returning. -/
theorem calculate_price_zero_strike_raises :
    BlackScholesModel.init 1 0 1 0 1 = .ok mz
      ∧ mz.calculate_price constLib "c" = .error .zeroDivisionError := by
  constructor
  · unfold BlackScholesModel.init mz
    rw [if_neg (by norm_num)]
  · exact calculate_price_raises mz constLib "c" rfl

/-- Claim C9, amended: for a model with nonzero strike, calling
calculate_price with an option type other than c and p raises the internal
ValueError inside the try block, which is caught, and the result is
returned normally with both the Manual and Py_Vollib fields None.  As
stated (for every successfully constructed model) the claim is false: with
K = 0 the ZeroDivisionError from _calculate_d1_d2 propagates before the
option type is examined. -/
theorem invalid_option_type_returns_none (lib : PyVollib) (m : BlackScholesModel)
    (ty : String) (hK : m.K ≠ 0) (hc : ty ≠ "c") (hp : ty ≠ "p") :
    m.calculate_price lib ty = .ok ⟨none, none⟩ := by
  rw [calculate_price_ok m lib ty hK]
  unfold priceEntry
  rw [if_neg hc, if_neg hp]
  rfl

/-- Witness for C9 at the concrete model mw and option type x. -/
theorem invalid_option_type_returns_none_witness :
    mw.calculate_price constLib "x" = .ok ⟨none, none⟩ :=
  invalid_option_type_returns_none constLib mw "x" (by norm_num [mw])
    (by decide) (by decide)

/-- Counterexample to C9 as stated: with K = 0 and an invalid option type
the operation raises ZeroDivisionError rather than returning the all-None
result. -/
theorem invalid_option_type_zero_strike_raises :
    BlackScholesModel.init 1 0 1 0 1 = .ok mz
      ∧ mz.calculate_price constLib "x" = .error .zeroDivisionError := by
  constructor
  · unfold BlackScholesModel.init mz
    rw [if_neg (by norm_num)]
  · exact calculate_price_raises mz constLib "x" rfl

/-- Claim C1: for S, K, T > 0 and sigma ≥ 0, the Manual value returned by
calculate_price is S·Φ(d1) − K·exp(−rT)·Φ(d2) for option type c and
K·exp(−rT)·Φ(−d2) − S·Φ(−d1) for option type p, with d1 and d2 the
intermediate terms derived from the stored parameters (the Py_Vollib field
carries the library value when the library call returns one). -/
theorem calculate_price_manual_formula (lib : PyVollib) (m : BlackScholesModel)
    (hS : 0 < m.S) (hK : 0 < m.K) (hT : 0 < m.T) (hs : 0 ≤ m.sigma) (vc vp : ℝ)
    (hbc : lib.bs "c" m.S m.K m.T m.r m.sigma = .ok vc)
    (hbp : lib.bs "p" m.S m.K m.T m.r m.sigma = .ok vp) :
    m.calculate_price lib "c"
        = .ok ⟨some (m.S * normCdf (d1val m)
            - m.K * Real.exp (-m.r * m.T) * normCdf (d2val m)), some vc⟩
      ∧ m.calculate_price lib "p"
        = .ok ⟨some (m.K * Real.exp (-m.r * m.T) * normCdf (-d2val m)
            - m.S * normCdf (-d1val m)), some vp⟩ := by
  constructor
  · rw [calculate_price_ok m lib "c" hK.ne']
    unfold priceEntry
    rw [if_pos rfl, hbc]
    rfl
  · rw [calculate_price_ok m lib "p" hK.ne']
    unfold priceEntry
    rw [if_neg (by decide), if_pos rfl, hbp]
    rfl

/-- Witness for C1 at the concrete model mw and the concrete library. -/
theorem calculate_price_manual_formula_witness :
    mw.calculate_price constLib "c"
        = .ok ⟨some (mw.S * normCdf (d1val mw)
            - mw.K * Real.exp (-mw.r * mw.T) * normCdf (d2val mw)), some 0⟩
      ∧ mw.calculate_price constLib "p"
        = .ok ⟨some (mw.K * Real.exp (-mw.r * mw.T) * normCdf (-d2val mw)
            - mw.S * normCdf (-d1val mw)), some 0⟩ :=
  calculate_price_manual_formula constLib mw (by norm_num [mw]) (by norm_num [mw])
    (by norm_num [mw]) (by norm_num [mw]) 0 0 rfl rfl

/-- Claim C2: for S, K, T > 0 and sigma > 0, _calculate_d1_d2 returns the
pair d1 = (ln(S/K) + (r + sigma²/2)·T)/(sigma·√T) and d2 = d1 − sigma·√T,
and both calculate_price and every Greek entry of calculate_greeks are
applied to this same pair derived once from the stored parameters. -/
theorem d1_d2_derivation (m : BlackScholesModel)
    (hS : 0 < m.S) (hK : 0 < m.K) (hT : 0 < m.T) (hs : 0 < m.sigma) :
    m.calculate_d1_d2 = .ok (d1val m, d2val m)
      ∧ d1val m = (Real.log (m.S / m.K) + (m.r + m.sigma ^ 2 / 2) * m.T)
          / (m.sigma * Real.sqrt m.T)
      ∧ d2val m = d1val m - m.sigma * Real.sqrt m.T
      ∧ ∀ lib : PyVollib, ∀ ty : String,
          m.calculate_price lib ty = .ok (priceEntry lib.bs m ty (d1val m) (d2val m))
            ∧ m.calculate_greeks lib ty = .ok
                ⟨deltaEntry lib.delta m ty (d1val m),
                  gammaEntry lib.gamma m ty (d1val m),
                  thetaEntry lib.theta m ty (d1val m) (d2val m),
                  vegaEntry lib.vega m ty (d1val m),
                  rhoEntry lib.rho m ty (d2val m)⟩ :=
  ⟨calculate_d1_d2_ok m hK.ne', rfl, rfl, fun lib ty =>
    ⟨calculate_price_ok m lib ty hK.ne', calculate_greeks_ok m lib ty hK.ne'⟩⟩

/-- Witness for C2 at the concrete model mw. -/
theorem d1_d2_derivation_witness :
    mw.calculate_d1_d2 = .ok (d1val mw, d2val mw) :=
  (d1_d2_derivation mw (by norm_num [mw]) (by norm_num [mw]) (by norm_num [mw])
    (by norm_num [mw])).1

/-- Claim C6, amended: for every model whose strike is nonzero and every
option type, calculate_greeks returns normally a record of all five Greek
fields, each field depending only on its own try block (so a library fault
in one Greek leaves the other four computed), and each field is either the
all-None entry or a pair of present values.  As stated (for every
successfully constructed model) the claim is false: with K = 0 the shared
d1/d2 computation raises ZeroDivisionError outside every try block and
aborts the whole batch. -/
theorem calculate_greeks_fields_independent (lib : PyVollib)
    (m : BlackScholesModel) (ty : String) (hK : m.K ≠ 0) :
    m.calculate_greeks lib ty = .ok
        ⟨deltaEntry lib.delta m ty (d1val m),
          gammaEntry lib.gamma m ty (d1val m),
          thetaEntry lib.theta m ty (d1val m) (d2val m),
          vegaEntry lib.vega m ty (d1val m),
          rhoEntry lib.rho m ty (d2val m)⟩
      ∧ (deltaEntry lib.delta m ty (d1val m) = ⟨none, none⟩
          ∨ ∃ x y, deltaEntry lib.delta m ty (d1val m) = ⟨some x, some y⟩)
      ∧ (gammaEntry lib.gamma m ty (d1val m) = ⟨none, none⟩
          ∨ ∃ x y, gammaEntry lib.gamma m ty (d1val m) = ⟨some x, some y⟩)
      ∧ (thetaEntry lib.theta m ty (d1val m) (d2val m) = ⟨none, none⟩
          ∨ ∃ x y, thetaEntry lib.theta m ty (d1val m) (d2val m) = ⟨some x, some y⟩)
      ∧ (vegaEntry lib.vega m ty (d1val m) = ⟨none, none⟩
          ∨ ∃ x y, vegaEntry lib.vega m ty (d1val m) = ⟨some x, some y⟩)
      ∧ (rhoEntry lib.rho m ty (d2val m) = ⟨none, none⟩
          ∨ ∃ x y, rhoEntry lib.rho m ty (d2val m) = ⟨some x, some y⟩) := by
  refine ⟨calculate_greeks_ok m lib ty hK, ?_, ?_, ?_, ?_, ?_⟩
  · exact entry_shape (lib.delta ty m.S m.K m.T m.r m.sigma) _
  · exact entry_shape (lib.gamma ty m.S m.K m.T m.r m.sigma) _
  · exact entry_shape (lib.theta ty m.S m.K m.T m.r m.sigma) _
  · exact entry_shape (lib.vega ty m.S m.K m.T m.r m.sigma) _
  · exact entry_shape (lib.rho ty m.S m.K m.T m.r m.sigma) _

/-- Witness for C6 at the concrete model mw and the concrete library. -/
theorem calculate_greeks_fields_independent_witness :
    mw.calculate_greeks constLib "c" = .ok
        ⟨deltaEntry constLib.delta mw "c" (d1val mw),
          gammaEntry constLib.gamma mw "c" (d1val mw),
          thetaEntry constLib.theta mw "c" (d1val mw) (d2val mw),
          vegaEntry constLib.vega mw "c" (d1val mw),
          rhoEntry constLib.rho mw "c" (d2val mw)⟩ :=
  (calculate_greeks_fields_independent constLib mw "c" (by norm_num [mw])).1

/-- Counterexample to C6 as stated: the model with K = 0 is constructed
successfully, yet calculate_greeks aborts the whole batch with
ZeroDivisionError instead of returning a record. -/
theorem calculate_greeks_zero_strike_raises :
    BlackScholesModel.init 1 0 1 0 1 = .ok mz
      ∧ mz.calculate_greeks constLib "c" = .error .zeroDivisionError := by
  constructor
  · unfold BlackScholesModel.init mz
    rw [if_neg (by norm_num)]
  · exact calculate_greeks_raises mz constLib "c" rfl

/-- Claim C4: for S, K, T > 0 and sigma > 0, the Manual Greeks returned by
calculate_greeks are Delta = Φ(d1) (call) and −Φ(−d1) (put), Gamma =
φ(d1)/(S·sigma·√T), Theta = the annualized theta divided by 365 with the
call and put signs, Vega = S·φ(d1)·√T·0.01, and Rho = ±K·T·exp(−rT)·Φ(±d2)
·0.01; each Manual value is present exactly when the corresponding library
cross-check call returns a value. -/
theorem calculate_greeks_manual_formulas (lib : PyVollib) (m : BlackScholesModel)
    (hS : 0 < m.S) (hK : 0 < m.K) (hT : 0 < m.T) (hs : 0 < m.sigma) :
    (∃ g, m.calculate_greeks lib "c" = .ok g
      ∧ g.Delta.Manual = (lib.delta "c" m.S m.K m.T m.r m.sigma).toOption.map
          (fun _ => normCdf (d1val m))
      ∧ g.Gamma.Manual = (lib.gamma "c" m.S m.K m.T m.r m.sigma).toOption.map
          (fun _ => normPdf (d1val m) / (m.S * m.sigma * Real.sqrt m.T))
      ∧ g.Theta.Manual = (lib.theta "c" m.S m.K m.T m.r m.sigma).toOption.map
          (fun _ => (-m.S * normPdf (d1val m) * m.sigma / (2 * Real.sqrt m.T)
              - m.r * m.K * Real.exp (-m.r * m.T) * normCdf (d2val m)) / 365)
      ∧ g.Vega.Manual = (lib.vega "c" m.S m.K m.T m.r m.sigma).toOption.map
          (fun _ => m.S * normPdf (d1val m) * Real.sqrt m.T * 0.01)
      ∧ g.Rho.Manual = (lib.rho "c" m.S m.K m.T m.r m.sigma).toOption.map
          (fun _ => m.K * m.T * Real.exp (-m.r * m.T) * normCdf (d2val m) * 0.01))
    ∧ (∃ g, m.calculate_greeks lib "p" = .ok g
      ∧ g.Delta.Manual = (lib.delta "p" m.S m.K m.T m.r m.sigma).toOption.map
          (fun _ => -normCdf (-d1val m))
      ∧ g.Gamma.Manual = (lib.gamma "p" m.S m.K m.T m.r m.sigma).toOption.map
          (fun _ => normPdf (d1val m) / (m.S * m.sigma * Real.sqrt m.T))
      ∧ g.Theta.Manual = (lib.theta "p" m.S m.K m.T m.r m.sigma).toOption.map
          (fun _ => (-m.S * normPdf (d1val m) * m.sigma / (2 * Real.sqrt m.T)
              + m.r * m.K * Real.exp (-m.r * m.T) * normCdf (-d2val m)) / 365)
      ∧ g.Vega.Manual = (lib.vega "p" m.S m.K m.T m.r m.sigma).toOption.map
          (fun _ => m.S * normPdf (d1val m) * Real.sqrt m.T * 0.01)
      ∧ g.Rho.Manual = (lib.rho "p" m.S m.K m.T m.r m.sigma).toOption.map
          (fun _ => -m.K * m.T * Real.exp (-m.r * m.T) * normCdf (-d2val m) * 0.01)) := by
  constructor
  · refine ⟨_, calculate_greeks_ok m lib "c" hK.ne', ?_, ?_, ?_, ?_, ?_⟩
    · rw [show (⟨deltaEntry lib.delta m "c" (d1val m),
          gammaEntry lib.gamma m "c" (d1val m),
          thetaEntry lib.theta m "c" (d1val m) (d2val m),
          vegaEntry lib.vega m "c" (d1val m),
          rhoEntry lib.rho m "c" (d2val m)⟩ : GreeksResult).Delta
            = deltaEntry lib.delta m "c" (d1val m) from rfl, deltaEntry_manual]
      simp
    · rw [show (⟨deltaEntry lib.delta m "c" (d1val m),
          gammaEntry lib.gamma m "c" (d1val m),
          thetaEntry lib.theta m "c" (d1val m) (d2val m),
          vegaEntry lib.vega m "c" (d1val m),
          rhoEntry lib.rho m "c" (d2val m)⟩ : GreeksResult).Gamma
            = gammaEntry lib.gamma m "c" (d1val m) from rfl, gammaEntry_manual]
    · rw [show (⟨deltaEntry lib.delta m "c" (d1val m),
          gammaEntry lib.gamma m "c" (d1val m),
          thetaEntry lib.theta m "c" (d1val m) (d2val m),
          vegaEntry lib.vega m "c" (d1val m),
          rhoEntry lib.rho m "c" (d2val m)⟩ : GreeksResult).Theta
            = thetaEntry lib.theta m "c" (d1val m) (d2val m) from rfl, thetaEntry_manual]
      simp
    · rw [show (⟨deltaEntry lib.delta m "c" (d1val m),
          gammaEntry lib.gamma m "c" (d1val m),
          thetaEntry lib.theta m "c" (d1val m) (d2val m),
          vegaEntry lib.vega m "c" (d1val m),
          rhoEntry lib.rho m "c" (d2val m)⟩ : GreeksResult).Vega
            = vegaEntry lib.vega m "c" (d1val m) from rfl, vegaEntry_manual]
    · rw [show (⟨deltaEntry lib.delta m "c" (d1val m),
          gammaEntry lib.gamma m "c" (d1val m),
          thetaEntry lib.theta m "c" (d1val m) (d2val m),
          vegaEntry lib.vega m "c" (d1val m),
          rhoEntry lib.rho m "c" (d2val m)⟩ : GreeksResult).Rho
            = rhoEntry lib.rho m "c" (d2val m) from rfl, rhoEntry_manual]
      simp
  · refine ⟨_, calculate_greeks_ok m lib "p" hK.ne', ?_, ?_, ?_, ?_, ?_⟩
    · rw [show (⟨deltaEntry lib.delta m "p" (d1val m),
          gammaEntry lib.gamma m "p" (d1val m),
          thetaEntry lib.theta m "p" (d1val m) (d2val m),
          vegaEntry lib.vega m "p" (d1val m),
          rhoEntry lib.rho m "p" (d2val m)⟩ : GreeksResult).Delta
            = deltaEntry lib.delta m "p" (d1val m) from rfl, deltaEntry_manual]
      simp
    · rw [show (⟨deltaEntry lib.delta m "p" (d1val m),
          gammaEntry lib.gamma m "p" (d1val m),
          thetaEntry lib.theta m "p" (d1val m) (d2val m),
          vegaEntry lib.vega m "p" (d1val m),
          rhoEntry lib.rho m "p" (d2val m)⟩ : GreeksResult).Gamma
            = gammaEntry lib.gamma m "p" (d1val m) from rfl, gammaEntry_manual]
    · rw [show (⟨deltaEntry lib.delta m "p" (d1val m),
          gammaEntry lib.gamma m "p" (d1val m),
          thetaEntry lib.theta m "p" (d1val m) (d2val m),
          vegaEntry lib.vega m "p" (d1val m),
          rhoEntry lib.rho m "p" (d2val m)⟩ : GreeksResult).Theta
            = thetaEntry lib.theta m "p" (d1val m) (d2val m) from rfl, thetaEntry_manual]
      simp
    · rw [show (⟨deltaEntry lib.delta m "p" (d1val m),
          gammaEntry lib.gamma m "p" (d1val m),
          thetaEntry lib.theta m "p" (d1val m) (d2val m),
          vegaEntry lib.vega m "p" (d1val m),
          rhoEntry lib.rho m "p" (d2val m)⟩ : GreeksResult).Vega
            = vegaEntry lib.vega m "p" (d1val m) from rfl, vegaEntry_manual]
    · rw [show (⟨deltaEntry lib.delta m "p" (d1val m),
          gammaEntry lib.gamma m "p" (d1val m),
          thetaEntry lib.theta m "p" (d1val m) (d2val m),
          vegaEntry lib.vega m "p" (d1val m),
          rhoEntry lib.rho m "p" (d2val m)⟩ : GreeksResult).Rho
            = rhoEntry lib.rho m "p" (d2val m) from rfl, rhoEntry_manual]
      simp

/-- Witness for C4 at the concrete model mw and the concrete library. -/
theorem calculate_greeks_manual_formulas_witness :
    ∃ g, mw.calculate_greeks constLib "c" = .ok g
      ∧ g.Delta.Manual = (constLib.delta "c" mw.S mw.K mw.T mw.r mw.sigma).toOption.map
          (fun _ => normCdf (d1val mw))
      ∧ g.Gamma.Manual = (constLib.gamma "c" mw.S mw.K mw.T mw.r mw.sigma).toOption.map
          (fun _ => normPdf (d1val mw) / (mw.S * mw.sigma * Real.sqrt mw.T))
      ∧ g.Theta.Manual = (constLib.theta "c" mw.S mw.K mw.T mw.r mw.sigma).toOption.map
          (fun _ => (-mw.S * normPdf (d1val mw) * mw.sigma / (2 * Real.sqrt mw.T)
              - mw.r * mw.K * Real.exp (-mw.r * mw.T) * normCdf (d2val mw)) / 365)
      ∧ g.Vega.Manual = (constLib.vega "c" mw.S mw.K mw.T mw.r mw.sigma).toOption.map
          (fun _ => mw.S * normPdf (d1val mw) * Real.sqrt mw.T * 0.01)
      ∧ g.Rho.Manual = (constLib.rho "c" mw.S mw.K mw.T mw.r mw.sigma).toOption.map
          (fun _ => mw.K * mw.T * Real.exp (-mw.r * mw.T) * normCdf (d2val mw) * 0.01) :=
  (calculate_greeks_manual_formulas constLib mw (by norm_num [mw]) (by norm_num [mw])
    (by norm_num [mw]) (by norm_num [mw])).1

/-- Claim C10: calculate_greeks does not validate the option type: for every
option type other than exactly c (including p and any invalid string, on a
model whose strike is nonzero) the Manual Delta, Theta and Rho values are
computed with the put formulas, each present exactly when the
corresponding library call returns a value, so an invalid option type
silently yields put Greeks on the manual path rather than an error. -/
theorem calculate_greeks_invalid_type_uses_put_formulas (lib : PyVollib)
    (m : BlackScholesModel) (ty : String) (hK : m.K ≠ 0) (hty : ty ≠ "c") :
    ∃ g, m.calculate_greeks lib ty = .ok g
      ∧ g.Delta.Manual = (lib.delta ty m.S m.K m.T m.r m.sigma).toOption.map
          (fun _ => -normCdf (-d1val m))
      ∧ g.Theta.Manual = (lib.theta ty m.S m.K m.T m.r m.sigma).toOption.map
          (fun _ => (-m.S * normPdf (d1val m) * m.sigma / (2 * Real.sqrt m.T)
              + m.r * m.K * Real.exp (-m.r * m.T) * normCdf (-d2val m)) / 365)
      ∧ g.Rho.Manual = (lib.rho ty m.S m.K m.T m.r m.sigma).toOption.map
          (fun _ => -m.K * m.T * Real.exp (-m.r * m.T) * normCdf (-d2val m) * 0.01) := by
  refine ⟨_, calculate_greeks_ok m lib ty hK, ?_, ?_, ?_⟩
  · rw [show (⟨deltaEntry lib.delta m ty (d1val m),
        gammaEntry lib.gamma m ty (d1val m),
        thetaEntry lib.theta m ty (d1val m) (d2val m),
        vegaEntry lib.vega m ty (d1val m),
        rhoEntry lib.rho m ty (d2val m)⟩ : GreeksResult).Delta
          = deltaEntry lib.delta m ty (d1val m) from rfl, deltaEntry_manual]
    simp [hty]
  · rw [show (⟨deltaEntry lib.delta m ty (d1val m),
        gammaEntry lib.gamma m ty (d1val m),
        thetaEntry lib.theta m ty (d1val m) (d2val m),
        vegaEntry lib.vega m ty (d1val m),
        rhoEntry lib.rho m ty (d2val m)⟩ : GreeksResult).Theta
          = thetaEntry lib.theta m ty (d1val m) (d2val m) from rfl, thetaEntry_manual]
    simp [hty]
  · rw [show (⟨deltaEntry lib.delta m ty (d1val m),
        gammaEntry lib.gamma m ty (d1val m),
        thetaEntry lib.theta m ty (d1val m) (d2val m),
        vegaEntry lib.vega m ty (d1val m),
        rhoEntry lib.rho m ty (d2val m)⟩ : GreeksResult).Rho
          = rhoEntry lib.rho m ty (d2val m) from rfl, rhoEntry_manual]
    simp [hty]

/-- Witness for C10 at the concrete model mw and the invalid option type x. -/
theorem calculate_greeks_invalid_type_witness :
    ∃ g, mw.calculate_greeks constLib "x" = .ok g
      ∧ g.Delta.Manual = (constLib.delta "x" mw.S mw.K mw.T mw.r mw.sigma).toOption.map
          (fun _ => -normCdf (-d1val mw))
      ∧ g.Theta.Manual = (constLib.theta "x" mw.S mw.K mw.T mw.r mw.sigma).toOption.map
          (fun _ => (-mw.S * normPdf (d1val mw) * mw.sigma / (2 * Real.sqrt mw.T)
              + mw.r * mw.K * Real.exp (-mw.r * mw.T) * normCdf (-d2val mw)) / 365)
      ∧ g.Rho.Manual = (constLib.rho "x" mw.S mw.K mw.T mw.r mw.sigma).toOption.map
          (fun _ => -mw.K * mw.T * Real.exp (-mw.r * mw.T) * normCdf (-d2val mw) * 0.01) :=
  calculate_greeks_invalid_type_uses_put_formulas constLib mw "x" (by norm_num [mw])
    (by decide)

/-- Claim C7: put-call parity: for S, K, T > 0 and sigma ≥ 0, the Manual
call price minus the Manual put price returned by calculate_price at the
same parameters equals S − K·exp(−rT) exactly. -/
theorem put_call_parity (lib : PyVollib) (m : BlackScholesModel)
    (hS : 0 < m.S) (hK : 0 < m.K) (hT : 0 < m.T) (hs : 0 ≤ m.sigma) (c p : ℝ)
    (hc : (m.calculate_price lib "c").toOption.bind ManualLib.Manual = some c)
    (hp : (m.calculate_price lib "p").toOption.bind ManualLib.Manual = some p) :
    c - p = m.S - m.K * Real.exp (-m.r * m.T) := by
  rw [calculate_price_ok m lib "c" hK.ne'] at hc
  rw [calculate_price_ok m lib "p" hK.ne'] at hp
  have hc' : (priceEntry lib.bs m "c" (d1val m) (d2val m)).Manual = some c := by
    simpa [Except.toOption] using hc
  have hp' : (priceEntry lib.bs m "p" (d1val m) (d2val m)).Manual = some p := by
    simpa [Except.toOption] using hp
  rw [priceEntry_manual lib.bs m "c" (d1val m) (d2val m) (Or.inl rfl)] at hc'
  rw [priceEntry_manual lib.bs m "p" (d1val m) (d2val m) (Or.inr rfl)] at hp'
  rcases hbc : lib.bs "c" m.S m.K m.T m.r m.sigma with e | vc
  · rw [hbc] at hc'
    simp [Except.toOption] at hc'
  rcases hbp : lib.bs "p" m.S m.K m.T m.r m.sigma with e | vp
  · rw [hbp] at hp'
    simp [Except.toOption] at hp'
  rw [hbc] at hc'
  rw [hbp] at hp'
  simp [Except.toOption] at hc' hp'
  have h1 := normCdf_add_normCdf_neg (d1val m)
  have h2 := normCdf_add_normCdf_neg (d2val m)
  rw [show (-m.r * m.T : ℝ) = -(m.r * m.T) by ring]
  linear_combination hc'.symm - hp'.symm + m.S * h1
    - m.K * Real.exp (-(m.r * m.T)) * h2

/-- Witness for C7 at the concrete model mw and the concrete library. -/
theorem put_call_parity_witness :
    mw.S * normCdf (d1val mw) - mw.K * Real.exp (-mw.r * mw.T) * normCdf (d2val mw)
        - (mw.K * Real.exp (-mw.r * mw.T) * normCdf (-d2val mw)
            - mw.S * normCdf (-d1val mw))
      = mw.S - mw.K * Real.exp (-mw.r * mw.T) :=
  put_call_parity constLib mw (by norm_num [mw]) (by norm_num [mw]) (by norm_num [mw])
    (by norm_num [mw])
    (mw.S * normCdf (d1val mw) - mw.K * Real.exp (-mw.r * mw.T) * normCdf (d2val mw))
    (mw.K * Real.exp (-mw.r * mw.T) * normCdf (-d2val mw) - mw.S * normCdf (-d1val mw))
    (by rw [calculate_price_ok mw constLib "c" (by norm_num [mw])]
        unfold priceEntry
        rw [if_pos rfl]
        rfl)
    (by rw [calculate_price_ok mw constLib "p" (by norm_num [mw])]
        unfold priceEntry
        rw [if_neg (by decide), if_pos rfl]
        rfl)

/-- Claim C8: for S, K, T > 0 and sigma > 0, Manual Gamma and Vega values
returned by calculate_greeks are non-negative, and the Gamma and the Vega
returned for option type c equal those returned for option type p at the
same parameters. -/
theorem gamma_vega_nonneg_and_type_independent (lib : PyVollib)
    (m : BlackScholesModel)
    (hS : 0 < m.S) (hK : 0 < m.K) (hT : 0 < m.T) (hs : 0 < m.sigma)
    (gc gp vc vp : ℝ)
    (hgc : (m.calculate_greeks lib "c").toOption.bind (fun g => g.Gamma.Manual) = some gc)
    (hgp : (m.calculate_greeks lib "p").toOption.bind (fun g => g.Gamma.Manual) = some gp)
    (hvc : (m.calculate_greeks lib "c").toOption.bind (fun g => g.Vega.Manual) = some vc)
    (hvp : (m.calculate_greeks lib "p").toOption.bind (fun g => g.Vega.Manual) = some vp) :
    (0 ≤ gc ∧ 0 ≤ vc) ∧ gc = gp ∧ vc = vp := by
  rw [calculate_greeks_ok m lib "c" hK.ne'] at hgc hvc
  rw [calculate_greeks_ok m lib "p" hK.ne'] at hgp hvp
  have hgc' : (gammaEntry lib.gamma m "c" (d1val m)).Manual = some gc := by
    simpa [Except.toOption] using hgc
  have hgp' : (gammaEntry lib.gamma m "p" (d1val m)).Manual = some gp := by
    simpa [Except.toOption] using hgp
  have hvc' : (vegaEntry lib.vega m "c" (d1val m)).Manual = some vc := by
    simpa [Except.toOption] using hvc
  have hvp' : (vegaEntry lib.vega m "p" (d1val m)).Manual = some vp := by
    simpa [Except.toOption] using hvp
  rw [gammaEntry_manual] at hgc' hgp'
  rw [vegaEntry_manual] at hvc' hvp'
  rcases h1 : lib.gamma "c" m.S m.K m.T m.r m.sigma with e | v1
  · rw [h1] at hgc'
    simp [Except.toOption] at hgc'
  rcases h2 : lib.gamma "p" m.S m.K m.T m.r m.sigma with e | v2
  · rw [h2] at hgp'
    simp [Except.toOption] at hgp'
  rcases h3 : lib.vega "c" m.S m.K m.T m.r m.sigma with e | v3
  · rw [h3] at hvc'
    simp [Except.toOption] at hvc'
  rcases h4 : lib.vega "p" m.S m.K m.T m.r m.sigma with e | v4
  · rw [h4] at hvp'
    simp [Except.toOption] at hvp'
  rw [h1] at hgc'
  rw [h2] at hgp'
  rw [h3] at hvc'
  rw [h4] at hvp'
  simp [Except.toOption] at hgc' hgp' hvc' hvp'
  refine ⟨⟨?_, ?_⟩, ?_, ?_⟩
  · rw [← hgc']
    exact div_nonneg (normPdf_nonneg _) (by positivity)
  · rw [← hvc']
    exact mul_nonneg (mul_nonneg (mul_nonneg hS.le (normPdf_nonneg _))
      (Real.sqrt_nonneg _)) (by norm_num)
  · rw [← hgc', ← hgp']
  · rw [← hvc', ← hvp']

/-- Witness for C8 at the concrete model mw and the concrete library. -/
theorem gamma_vega_nonneg_witness :
    (0 ≤ normPdf (d1val mw) / (mw.S * mw.sigma * Real.sqrt mw.T)
        ∧ 0 ≤ mw.S * normPdf (d1val mw) * Real.sqrt mw.T * 0.01)
      ∧ normPdf (d1val mw) / (mw.S * mw.sigma * Real.sqrt mw.T)
          = normPdf (d1val mw) / (mw.S * mw.sigma * Real.sqrt mw.T)
      ∧ mw.S * normPdf (d1val mw) * Real.sqrt mw.T * 0.01
          = mw.S * normPdf (d1val mw) * Real.sqrt mw.T * 0.01 :=
  gamma_vega_nonneg_and_type_independent constLib mw (by norm_num [mw])
    (by norm_num [mw]) (by norm_num [mw]) (by norm_num [mw])
    (normPdf (d1val mw) / (mw.S * mw.sigma * Real.sqrt mw.T))
    (normPdf (d1val mw) / (mw.S * mw.sigma * Real.sqrt mw.T))
    (mw.S * normPdf (d1val mw) * Real.sqrt mw.T * 0.01)
    (mw.S * normPdf (d1val mw) * Real.sqrt mw.T * 0.01)
    (by rw [calculate_greeks_ok mw constLib "c" (by norm_num [mw])]
        rfl)
    (by rw [calculate_greeks_ok mw constLib "p" (by norm_num [mw])]
        rfl)
    (by rw [calculate_greeks_ok mw constLib "c" (by norm_num [mw])]
        rfl)
    (by rw [calculate_greeks_ok mw constLib "p" (by norm_num [mw])]
        rfl)
